import Mathlib

/- Shallow embedding of the LLDB MCP server (src/lldb_mcp.py) in Lean 4.

The module-level mutable dictionary `debugger_state` becomes the structure
`SessionState`; each tool becomes a pure function from an environment
(modelling the external LLDB engine behaviour observable during one call)
and a session state to its result.  Python dictionaries returned to the
caller become association lists of `String × Value`, so that key presence
(`"error" not in result`) is representable.  Python string operations
(`in`, `startswith`, `split`) are modelled by executable functions over
the character list of a `String`, mirroring Python semantics.
-/

namespace LldbMcp

/-- Single-quote character, used by the source inside f-strings. -/
def sq : String := String.mk [Char.ofNat 39]

/-- Python substring containment `needle in hay` over character lists. -/
def listContainsSub (needle : List Char) : List Char → Bool
  | [] => needle.isEmpty
  | c :: t => List.isPrefixOf needle (c :: t) || listContainsSub needle t

/-- Python `needle in hay` on strings. -/
def pyIn (needle hay : String) : Bool :=
  listContainsSub needle.data hay.data

/-- Python `s.startswith(pre)`. -/
def pyStartsWith (s pre : String) : Bool :=
  List.isPrefixOf pre.data s.data

/-- Python `str.split(sep)` with an explicit one-character separator,
over character lists: always returns at least one field. -/
def splitChars (sep : Char) : List Char → List (List Char)
  | [] => [[]]
  | c :: cs =>
    if c = sep then [] :: splitChars sep cs
    else (c :: (splitChars sep cs).headD []) :: (splitChars sep cs).tail

/-- Python `s.split(sep)` on strings. -/
def pySplit (s : String) (sep : Char) : List String :=
  (splitChars sep s.data).map String.mk

/-- Values stored in the result dictionaries the tools return. -/
inductive Value where
  | vStr : String → Value
  | vBool : Bool → Value
  | vNat : Nat → Value
  | vNone : Value
deriving DecidableEq

/-- A Python dictionary returned to the caller, as an association list. -/
abbrev Dict := List (String × Value)

/-- Dictionary key lookup. -/
def dictLookup (d : Dict) (k : String) : Option Value :=
  List.lookup k d

/-- Python `k in d` on dictionaries. -/
def hasKey (d : Dict) (k : String) : Bool :=
  (dictLookup d k).isSome

/-- Python `d.get(k, dflt)` where the stored value is a string. -/
def dictGetStr (d : Dict) (k : String) (dflt : String) : String :=
  match dictLookup d k with
  | some (Value.vStr s) => s
  | some _ => dflt
  | none => dflt

/-- Python `None`-or-string turned into a dictionary value. -/
def optStrVal : Option String → Value
  | some s => Value.vStr s
  | none => Value.vNone

/-- Result of `interpreter.HandleCommand`: output text, success flag and
error text (`SBCommandReturnObject`). -/
structure CmdResult where
  output : String
  succeeded : Bool
  errorText : String
deriving DecidableEq

/-- Observable behaviour of the process attached to the stored target:
validity, `GetState()` code, `GetProcessID()`, and the chunk sequence
`GetSTDOUT(1024)` yields. -/
structure ProcessInfo where
  valid : Bool
  stateCode : Nat
  pid : Nat
  stdoutChunks : List String
deriving DecidableEq

/-- Observable behaviour of the stored target handle during one call. -/
structure TargetInfo where
  valid : Bool
  process : Option ProcessInfo
deriving DecidableEq

/-- The module-level `debugger_state` dictionary: five slots, each
`None` (here `none`) until initialization succeeds. Handles are opaque
and modelled as numbers. -/
structure SessionState where
  debugger : Option Nat
  interpreter : Option Nat
  target : Option Nat
  filename : Option String
  arch : Option String
deriving DecidableEq

/-- External behaviour of the LLDB engine and the filesystem as observed
during a single tool call: outcome of each engine primitive the code
invokes, behaviour of the stored target, and whether `open` succeeds. -/
structure Env where
  fileExists : String → Bool
  createOk : Bool
  interpreterOk : Bool
  targetValid : Bool
  targetErrSuccess : Bool
  targetErrMsg : String
  handleCommand : String → CmdResult
  liveTarget : TargetInfo
  canOpen : String → Bool
  openErrMsg : String

/-- Engine primitives `initialize_debugger` may invoke, in call order,
used to state that a failing path performed no engine interaction. -/
inductive EngineCall where
  | create
  | setAsync
  | getInterpreter
  | createTarget
  | terminateEngine
deriving DecidableEq

/-- A filesystem: map from path to content of an existing file. -/
abbrev FileSys := String → Option String

/-- The fixed error message used by the not-initialized early returns. -/
def notInitMsg : String := "LLDB not initialized. Call initialize_debugger() first."

/-- The message returned when the target executable does not exist. -/
def notExistMsg (filename : String) : String :=
  "Error: The file " ++ sq ++ filename ++ sq ++ " does not exist."

/-- Embedding of `initialize_debugger` (src lines 51-109): existence
check, engine creation, interpreter acquisition, target creation; on the
two late failures the engine is torn down and nothing is stored; on
success all five slots are stored.  Returns the message, the new state,
and the list of engine primitives invoked. -/
def initialize_debugger (env : Env) (s : SessionState) (filename : String)
    (arch : String) : String × SessionState × List EngineCall :=
  if !env.fileExists filename then
    (notExistMsg filename, s, [])
  else if !env.createOk then
    ("Error: Failed to create SBDebugger instance.", s, [EngineCall.create])
  else if !env.interpreterOk then
    ("Error: Failed to get command interpreter.", s,
      [EngineCall.create, EngineCall.setAsync, EngineCall.getInterpreter,
       EngineCall.terminateEngine])
  else if !env.targetValid || !env.targetErrSuccess then
    ("Error: Failed to create target: " ++ env.targetErrMsg, s,
      [EngineCall.create, EngineCall.setAsync, EngineCall.getInterpreter,
       EngineCall.createTarget, EngineCall.terminateEngine])
  else
    ("Successfully initialized LLDB debugger for target: " ++ filename
        ++ " (arch: " ++ arch ++ ")",
      ⟨some 1, some 1, some 1, some filename, some arch⟩,
      [EngineCall.create, EngineCall.setAsync, EngineCall.getInterpreter,
       EngineCall.createTarget])

/-- The stdout drain loop (src lines 140-146): read chunks until a falsy
(empty) chunk, concatenating. -/
def drainStdout (chunks : List String) : String :=
  String.join (chunks.takeWhile (fun c => !(c = "")))

/-- Embedding of `run_lldb_command_func` (src lines 112-152): early
error dictionary when interpreter or target is unset; otherwise run the
command, append error text to the output on failure, and drain the
debuggee stdout when a valid process exists. -/
def run_lldb_command_func (env : Env) (s : SessionState) (command : String) :
    Dict :=
  if s.interpreter.isNone || s.target.isNone then
    [("error", Value.vStr notInitMsg),
     ("lldb_output", Value.vStr ""),
     ("program_stdout", Value.vStr "")]
  else
    let result := env.handleCommand command
    let lldb_output :=
      if result.succeeded then result.output
      else result.output ++ result.errorText
    let program_stdout :=
      match env.liveTarget.process with
      | some p => if p.valid then drainStdout p.stdoutChunks else ""
      | none => ""
    [("command", Value.vStr command),
     ("lldb_output", Value.vStr lldb_output),
     ("program_stdout", Value.vStr program_stdout)]

/-- Embedding of `run_lldb_command` (src lines 157-193): with no output
filename, delegate; otherwise open the file for writing (truncating it)
around the delegated call — the body never writes to the handle — and on
an open failure return an error dictionary.  Returns the result and the
filesystem after the call. -/
def run_lldb_command (env : Env) (s : SessionState) (command : String)
    (output_filename : String) (fs : FileSys) : Dict × FileSys :=
  if output_filename = "" then
    (run_lldb_command_func env s command, fs)
  else if env.canOpen output_filename then
    (run_lldb_command_func env s command,
      fun n => if n = output_filename then some "" else fs n)
  else
    ([("error", Value.vStr env.openErrMsg)], fs)

/-- The `state_names` dictionary (src lines 238-251), keyed by the
numeric values of the `lldb.eState*` enumeration constants (0-11). -/
def state_names : List (Nat × String) :=
  [(0, "invalid"), (1, "unloaded"), (2, "connected"), (3, "attaching"),
   (4, "launching"), (5, "stopped"), (6, "running"), (7, "stepping"),
   (8, "crashed"), (9, "detached"), (10, "exited"), (11, "suspended")]

/-- Python `state_names.get(state, "unknown")` (src line 252). -/
def stateName (code : Nat) : String :=
  (List.lookup code state_names).getD "unknown"

/-- The process-guard chain of `get_debugger_status` (src lines 233-236):
the process reported on, if the stored target is set and valid and its
process exists and is valid. -/
def validProcess (env : Env) (s : SessionState) : Option ProcessInfo :=
  match s.target with
  | none => none
  | some _ =>
    if env.liveTarget.valid then
      match env.liveTarget.process with
      | some p => if p.valid then some p else none
      | none => none
    else none

/-- Embedding of `get_debugger_status` (src lines 197-255).  Note the
uninitialized branch returns a four-key dictionary without
`"process_id"`, exactly as the source does. -/
def get_debugger_status (env : Env) (s : SessionState) : Dict :=
  if s.debugger.isNone then
    [("initialized", Value.vBool false),
     ("filename", Value.vNone),
     ("arch", Value.vNone),
     ("process_state", Value.vStr "No debugger initialized")]
  else
    match validProcess env s with
    | some p =>
      [("initialized", Value.vBool true),
       ("filename", optStrVal s.filename),
       ("arch", optStrVal s.arch),
       ("process_state", Value.vStr (stateName p.stateCode)),
       ("process_id", Value.vNat p.pid)]
    | none =>
      [("initialized", Value.vBool true),
       ("filename", optStrVal s.filename),
       ("arch", optStrVal s.arch),
       ("process_state", Value.vStr "No process"),
       ("process_id", Value.vNone)]

/-- Embedding of `terminate_debugger` (src lines 260-284). -/
def terminate_debugger (s : SessionState) : String × SessionState :=
  if s.debugger.isSome then
    ("LLDB debugger session terminated successfully.",
      ⟨none, none, none, none, none⟩)
  else
    ("No active debugger session to terminate.", s)

/-- The breakpoint command built by `set_breakpoint` (src lines 323-336):
colon means file:line using fields 0 and 1 of the colon split, else a
`0x` prefix means address, else name; a non-empty condition appends a
single-quoted condition clause. -/
def breakpoint_cmd (location condition : String) : String :=
  let cmd :=
    if pyIn ":" location then
      "breakpoint set --file " ++ (pySplit location ':').getD 0 ""
        ++ " --line " ++ (pySplit location ':').getD 1 ""
    else if pyStartsWith location "0x" then
      "breakpoint set --address " ++ location
    else
      "breakpoint set --name " ++ location
  if condition = "" then cmd
  else cmd ++ " --condition " ++ sq ++ condition ++ sq

/-- Reading of the translator following the claim wording, for comparison
with `breakpoint_cmd`: same precedence, but the line part is the whole
substring after the first colon. -/
def breakpoint_cmd_claim (location condition : String) : String :=
  let cmd :=
    if pyIn ":" location then
      "breakpoint set --file "
        ++ String.mk (location.data.takeWhile (fun c => c != ':'))
        ++ " --line "
        ++ String.mk ((location.data.dropWhile (fun c => c != ':')).tail)
    else if pyStartsWith location "0x" then
      "breakpoint set --address " ++ location
    else
      "breakpoint set --name " ++ location
  if condition = "" then cmd
  else cmd ++ " --condition " ++ sq ++ condition ++ sq

/-- Embedding of `set_breakpoint` (src lines 289-348): early three-key
result when no interpreter is stored; otherwise run the built command and
report success by the substring heuristic. -/
def set_breakpoint (env : Env) (s : SessionState) (location condition : String) :
    Dict :=
  if s.interpreter.isNone then
    [("success", Value.vBool false),
     ("message", Value.vStr notInitMsg),
     ("lldb_output", Value.vStr "")]
  else
    let result := run_lldb_command_func env s (breakpoint_cmd location condition)
    let success := pyIn "Breakpoint" (dictGetStr result "lldb_output" "")
        && !(hasKey result "error")
    [("success", Value.vBool success),
     ("message", Value.vStr
        (if success then "Breakpoint set at " ++ location
         else "Failed to set breakpoint")),
     ("lldb_output", Value.vStr (dictGetStr result "lldb_output" "")),
     ("condition", Value.vStr (if condition = "" then "None" else condition))]

/-- Embedding of `list_breakpoints` (src lines 353-369). -/
def list_breakpoints (env : Env) (s : SessionState) : Dict :=
  let result := run_lldb_command_func env s "breakpoint list"
  [("lldb_output", Value.vStr (dictGetStr result "lldb_output" "")),
   ("program_stdout", Value.vStr (dictGetStr result "program_stdout" ""))]

/-- The initial `debugger_state`: every slot `None`. -/
def initialState : SessionState := ⟨none, none, none, none, none⟩

/-- A session where initialization has succeeded. -/
def readyState : SessionState :=
  ⟨some 1, some 1, some 1, some "/bin/ls", some "x86_64"⟩

/-- The session is uninitialized: no handles stored. -/
def Uninitialized (s : SessionState) : Prop :=
  s.debugger = none ∧ s.interpreter = none ∧ s.target = none

/-- The session invariant: interpreter and target handles are stored if
and only if the debugger handle is (the code's notion of Initialized). -/
def sessionInv (s : SessionState) : Prop :=
  (s.interpreter.isSome ∧ s.target.isSome) ↔ s.debugger.isSome

/-- A benign engine environment: everything succeeds, commands produce
empty output, no process exists. -/
def env0 : Env :=
  ⟨fun _ => true, true, true, true, true, "",
   fun _ => ⟨"", true, ""⟩, ⟨false, none⟩, fun _ => true, "open failed"⟩

/-- An environment whose commands print `hello`. -/
def envHello : Env :=
  ⟨fun _ => true, true, true, true, true, "",
   fun _ => ⟨"hello", true, ""⟩, ⟨false, none⟩, fun _ => true, "open failed"⟩

/-- An environment where opening the output file fails. -/
def envNoOpen : Env :=
  ⟨fun _ => true, true, true, true, true, "",
   fun _ => ⟨"hello", true, ""⟩, ⟨false, none⟩, fun _ => false, "open failed"⟩

/-- An environment in which the target executable is missing. -/
def envMissing : Env :=
  ⟨fun _ => false, true, true, true, true, "",
   fun _ => ⟨"", true, ""⟩, ⟨false, none⟩, fun _ => true, "open failed"⟩

/-- An environment in which target creation fails after the engine was
created. -/
def envFailTarget : Env :=
  ⟨fun _ => true, true, true, false, false, "bad target",
   fun _ => ⟨"", true, ""⟩, ⟨false, none⟩, fun _ => true, "open failed"⟩

/-- An environment whose commands answer like a successful
`breakpoint set`. -/
def envBp : Env :=
  ⟨fun _ => true, true, true, true, true, "",
   fun _ => ⟨"Breakpoint 1: where = main", true, ""⟩, ⟨false, none⟩,
   fun _ => true, "open failed"⟩

/-- The empty filesystem. -/
def emptyFs : FileSys := fun _ => none

/-- An environment whose stored target has a valid running process. -/
def envProc : Env :=
  ⟨fun _ => true, true, true, true, true, "",
   fun _ => ⟨"", true, ""⟩, ⟨true, some ⟨true, 6, 1234, []⟩⟩,
   fun _ => true, "open failed"⟩

/-- The closed process-state vocabulary of the status reporter. -/
def allowedStates : List String :=
  ["invalid", "unloaded", "connected", "attaching", "launching", "stopped",
   "running", "stepping", "crashed", "detached", "exited", "suspended",
   "unknown"]

theorem splitChars_ne_nil (sep : Char) (l : List Char) :
    splitChars sep l ≠ [] := by
  cases l with
  | nil => simp [splitChars]
  | cons c cs =>
    simp only [splitChars]
    split <;> simp

theorem splitChars_headD (sep : Char) (l : List Char) :
    (splitChars sep l).headD [] = l.takeWhile (fun c => c != sep) := by
  induction l with
  | nil => rfl
  | cons c cs ih =>
    simp only [splitChars]
    by_cases hc : c = sep
    · subst hc
      simp [List.takeWhile_cons]
    · simpa [hc, List.takeWhile_cons] using ih

theorem splitChars_cons_of_mem (sep : Char) (l : List Char) (h : sep ∈ l) :
    splitChars sep l =
      (l.takeWhile (fun c => c != sep))
        :: splitChars sep ((l.dropWhile (fun c => c != sep)).tail) := by
  induction l with
  | nil => cases h
  | cons c cs ih =>
    by_cases hc : c = sep
    · subst hc
      simp [splitChars, List.takeWhile_cons, List.dropWhile_cons]
    · have hmem : sep ∈ cs := by
        rcases List.mem_cons.mp h with h1 | h2
        · exact absurd h1.symm hc
        · exact h2
      simp [splitChars, hc, ih hmem, List.takeWhile_cons, List.dropWhile_cons]

theorem listContainsSub_singleton (c : Char) (l : List Char) :
    listContainsSub [c] l = l.contains c := by
  induction l with
  | nil => rfl
  | cons a t ih =>
    have hb : (c == a) = decide (c = a) := by
      cases h : c == a
      · simp [beq_eq_false_iff_ne.mp h]
      · simp [beq_iff_eq.mp h]
    simp [listContainsSub, List.isPrefixOf, ih, List.contains_cons, hb]

theorem pyIn_colon (location : String) :
    pyIn ":" location = true ↔ (':' : Char) ∈ location.data := by
  have h1 : (":" : String).data = [':'] := by decide
  show listContainsSub (":" : String).data location.data = true ↔ _
  rw [h1, listContainsSub_singleton]
  exact List.elem_iff

theorem isPrefixOf_iff (l1 l2 : List Char) :
    List.isPrefixOf l1 l2 = true ↔ l1 <+: l2 := by
  induction l1 generalizing l2 with
  | nil => simp [List.isPrefixOf]
  | cons a t ih =>
    cases l2 with
    | nil => simp [List.isPrefixOf]
    | cons b s => simp [List.isPrefixOf, List.cons_prefix_cons, ih]

theorem pyStartsWith_0x (location : String) :
    pyStartsWith location "0x" = true ↔ ['0', 'x'] <+: location.data := by
  have h1 : ("0x" : String).data = ['0', 'x'] := by decide
  show List.isPrefixOf ("0x" : String).data location.data = true ↔ _
  rw [h1]
  exact isPrefixOf_iff _ _

theorem lookup_state_names_of_ge (code : Nat) (h : 12 ≤ code) :
    List.lookup code state_names = none := by
  have hb : ∀ k : Nat, k < 12 → (code == k) = false := fun k hk =>
    beq_eq_false_iff_ne.mpr (by omega)
  simp [state_names, List.lookup, hb 0 (by omega), hb 1 (by omega),
    hb 2 (by omega), hb 3 (by omega), hb 4 (by omega), hb 5 (by omega),
    hb 6 (by omega), hb 7 (by omega), hb 8 (by omega), hb 9 (by omega),
    hb 10 (by omega), hb 11 (by omega)]


theorem pySplit_fields (loc : String) (hc : (':' : Char) ∈ loc.data) :
    (pySplit loc ':').getD 0 ""
        = String.mk (loc.data.takeWhile (fun c => c != ':')) ∧
      (pySplit loc ':').getD 1 ""
        = String.mk
            ((loc.data.dropWhile (fun c => c != ':')).tail.takeWhile
              (fun c => c != ':')) := by
  unfold pySplit
  rw [splitChars_cons_of_mem ':' loc.data hc]
  refine ⟨by simp, ?_⟩
  cases hs : splitChars ':' ((loc.data.dropWhile (fun c => c != ':')).tail) with
  | nil => exact absurd hs (splitChars_ne_nil _ _)
  | cons f rest =>
    have hh := splitChars_headD ':' ((loc.data.dropWhile (fun c => c != ':')).tail)
    rw [hs] at hh
    simp at hh
    simp [hs, hh]

/-- Claim C3 (amended): precedence of the breakpoint translator. -/
theorem lldb_c3_amended (location condition : String) :
    breakpoint_cmd location condition =
      (if (':' : Char) ∈ location.data then
        "breakpoint set --file "
          ++ String.mk (location.data.takeWhile (fun c => c != ':'))
          ++ " --line "
          ++ String.mk
            ((location.data.dropWhile (fun c => c != ':')).tail.takeWhile
              (fun c => c != ':'))
      else if ['0', 'x'] <+: location.data then
        "breakpoint set --address " ++ location
      else
        "breakpoint set --name " ++ location)
      ++ (if condition = "" then ""
          else " --condition " ++ sq ++ condition ++ sq) := by
  have hbase :
      (if pyIn ":" location then
        "breakpoint set --file " ++ (pySplit location ':').getD 0 ""
          ++ " --line " ++ (pySplit location ':').getD 1 ""
      else if pyStartsWith location "0x" then
        "breakpoint set --address " ++ location
      else "breakpoint set --name " ++ location)
      = (if (':' : Char) ∈ location.data then
        "breakpoint set --file "
          ++ String.mk (location.data.takeWhile (fun c => c != ':'))
          ++ " --line "
          ++ String.mk
            ((location.data.dropWhile (fun c => c != ':')).tail.takeWhile
              (fun c => c != ':'))
      else if ['0', 'x'] <+: location.data then
        "breakpoint set --address " ++ location
      else
        "breakpoint set --name " ++ location) := by
    by_cases hcol : (':' : Char) ∈ location.data
    · have hin : pyIn ":" location = true := (pyIn_colon location).mpr hcol
      obtain ⟨h0, h1⟩ := pySplit_fields location hcol
      rw [if_pos hin, if_pos hcol, h0, h1]
    · have hin : ¬(pyIn ":" location = true) :=
        fun h => hcol ((pyIn_colon location).mp h)
      rw [if_neg hin, if_neg hcol]
      by_cases hpre : ['0', 'x'] <+: location.data
      · have hst : pyStartsWith location "0x" = true :=
          (pyStartsWith_0x location).mpr hpre
        rw [if_pos hst, if_pos hpre]
      · have hst : ¬(pyStartsWith location "0x" = true) :=
          fun h => hpre ((pyStartsWith_0x location).mp h)
        rw [if_neg hst, if_neg hpre]
  simp only [breakpoint_cmd]
  by_cases hcond : condition = ""
  · rw [if_pos hcond, if_pos hcond, hbase, String.append_empty]
  · rw [if_neg hcond, if_neg hcond, hbase]
    simp [String.append_assoc]

/-- Claim C3 counterexample: on a location with two colons the code keeps
only the field between the first two colons as the line part, not the
whole substring after the first colon. -/
theorem lldb_c3_counterexample :
    breakpoint_cmd "a:b:c" "" = "breakpoint set --file a --line b" ∧
    breakpoint_cmd_claim "a:b:c" "" = "breakpoint set --file a --line b:c" ∧
    breakpoint_cmd "a:b:c" "" ≠ breakpoint_cmd_claim "a:b:c" "" := by
  refine ⟨by decide, by decide, by decide⟩

/-- Claim C4: initialization with a filename that does not exist on the
filesystem returns the not-found error message, performs no engine
interaction, and leaves the session state unchanged. -/
theorem lldb_c4_not_found (env : Env) (s : SessionState)
    (filename arch : String) (h : env.fileExists filename = false) :
    initialize_debugger env s filename arch =
      (notExistMsg filename, s, ([] : List EngineCall)) := by
  simp [initialize_debugger, h]

/-- Claim C4 witness at a concrete environment and input. -/
theorem lldb_c4_witness :
    initialize_debugger envMissing initialState "/nope" "arm64" =
      (notExistMsg "/nope", initialState, ([] : List EngineCall)) :=
  lldb_c4_not_found envMissing initialState "/nope" "arm64" rfl

/-- Claim C6: `terminate_debugger` resets every field and reports
success on an initialized session, is a no-op with the informational
message on an uninitialized one, and a second consecutive call always
returns the no-op message. -/
theorem lldb_c6_idempotent (s : SessionState) :
    (s.debugger.isSome = true →
      terminate_debugger s =
        ("LLDB debugger session terminated successfully.", initialState)) ∧
    (s.debugger = none →
      terminate_debugger s =
        ("No active debugger session to terminate.", s)) ∧
    (terminate_debugger (terminate_debugger s).2).1 =
      "No active debugger session to terminate." := by
  cases hd : s.debugger <;> simp [terminate_debugger, hd, initialState]

/-- Claim C6 witness: both branches at concrete states. -/
theorem lldb_c6_witness :
    terminate_debugger readyState =
      ("LLDB debugger session terminated successfully.", initialState) ∧
    terminate_debugger initialState =
      ("No active debugger session to terminate.", initialState) :=
  ⟨(lldb_c6_idempotent readyState).1 rfl,
   (lldb_c6_idempotent initialState).2.1 rfl⟩

/-- Claim C2 counterexample: on an uninitialized session,
`list_breakpoints` returns a record with no error field, no success
flag, and empty outputs only — not a NotInitialized-class result
carrying the fixed message. -/
theorem lldb_c2_counterexample :
    list_breakpoints env0 initialState =
      [("lldb_output", Value.vStr ""), ("program_stdout", Value.vStr "")] ∧
    hasKey (list_breakpoints env0 initialState) "error" = false ∧
    dictLookup (list_breakpoints env0 initialState) "success" = none := by
  refine ⟨by decide, by decide, by decide⟩

/-- Claim C2 (amended): on an uninitialized session every tool operation
returns a structured result and none raises; `run_lldb_command_func`,
`run_lldb_command` without an output filename or with one that can be
opened, and `set_breakpoint` carry the fixed not-initialized message;
`run_lldb_command` with an output filename that cannot be opened returns
a record whose error field carries the open error instead;
`list_breakpoints` returns only empty output fields,
`get_debugger_status` reports initialized false, and
`terminate_debugger` returns the no-op message. -/
theorem lldb_c2_amended (env : Env) (s : SessionState)
    (command location condition output_filename : String) (fs : FileSys)
    (h : Uninitialized s) :
    run_lldb_command_func env s command =
      [("error", Value.vStr notInitMsg), ("lldb_output", Value.vStr ""),
       ("program_stdout", Value.vStr "")] ∧
    (run_lldb_command env s command "" fs).1 =
      [("error", Value.vStr notInitMsg), ("lldb_output", Value.vStr ""),
       ("program_stdout", Value.vStr "")] ∧
    (output_filename ≠ "" → env.canOpen output_filename = true →
      (run_lldb_command env s command output_filename fs).1 =
        [("error", Value.vStr notInitMsg), ("lldb_output", Value.vStr ""),
         ("program_stdout", Value.vStr "")]) ∧
    (output_filename ≠ "" → env.canOpen output_filename = false →
      (run_lldb_command env s command output_filename fs).1 =
        [("error", Value.vStr env.openErrMsg)]) ∧
    set_breakpoint env s location condition =
      [("success", Value.vBool false), ("message", Value.vStr notInitMsg),
       ("lldb_output", Value.vStr "")] ∧
    list_breakpoints env s =
      [("lldb_output", Value.vStr ""), ("program_stdout", Value.vStr "")] ∧
    get_debugger_status env s =
      [("initialized", Value.vBool false), ("filename", Value.vNone),
       ("arch", Value.vNone),
       ("process_state", Value.vStr "No debugger initialized")] ∧
    terminate_debugger s = ("No active debugger session to terminate.", s) := by
  obtain ⟨hd, hi, ht⟩ := h
  have hfunc : ∀ c : String, run_lldb_command_func env s c =
      [("error", Value.vStr notInitMsg), ("lldb_output", Value.vStr ""),
       ("program_stdout", Value.vStr "")] := by
    intro c
    simp [run_lldb_command_func, hi, ht]
  refine ⟨hfunc command, ?_, ?_, ?_, ?_, ?_, ?_, ?_⟩
  · simp [run_lldb_command, hfunc]
  · intro hne hop
    simp [run_lldb_command, hne, hop, hfunc]
  · intro hne hop
    simp [run_lldb_command, hne, hop]
  · simp [set_breakpoint, hi]
  · unfold list_breakpoints
    rw [hfunc]
    decide
  · simp [get_debugger_status, hd]
  · simp [terminate_debugger, hd]

/-- Claim C2 witness at a concrete uninitialized session: the fixed
not-initialized record without a file and with an openable file, and the
open-error record with an unopenable one. -/
theorem lldb_c2_witness :
    run_lldb_command_func env0 initialState "run" =
      [("error", Value.vStr notInitMsg), ("lldb_output", Value.vStr ""),
       ("program_stdout", Value.vStr "")] ∧
    (run_lldb_command env0 initialState "run" "out.txt" emptyFs).1 =
      [("error", Value.vStr notInitMsg), ("lldb_output", Value.vStr ""),
       ("program_stdout", Value.vStr "")] ∧
    (run_lldb_command envNoOpen initialState "run" "out.txt" emptyFs).1 =
      [("error", Value.vStr "open failed")] := by
  refine ⟨(lldb_c2_amended env0 initialState "run" "main" "" "out.txt" emptyFs
      ⟨rfl, rfl, rfl⟩).1, ?_, ?_⟩
  · exact (lldb_c2_amended env0 initialState "run" "main" "" "out.txt" emptyFs
      ⟨rfl, rfl, rfl⟩).2.2.1 (by decide) rfl
  · have hcase := (lldb_c2_amended envNoOpen initialState "run" "main" ""
      "out.txt" emptyFs ⟨rfl, rfl, rfl⟩).2.2.2.1 (by decide) rfl
    simpa using hcase

/-- Claim C10 counterexample: on an uninitialized session the record
returned by `set_breakpoint` has no condition field at all. -/
theorem lldb_c10_counterexample :
    dictLookup (set_breakpoint env0 initialState "main" "x > 10")
      "condition" = none ∧
    set_breakpoint env0 initialState "main" "x > 10" =
      [("success", Value.vBool false), ("message", Value.vStr notInitMsg),
       ("lldb_output", Value.vStr "")] := by
  refine ⟨by decide, by decide⟩

/-- Claim C10 (amended): whenever the not-initialized early return is
not taken, the condition field equals the supplied condition when
non-empty and the literal string None otherwise. -/
theorem lldb_c10_amended (env : Env) (s : SessionState)
    (location condition : String) (hi : s.interpreter.isSome = true) :
    dictLookup (set_breakpoint env s location condition) "condition"
      = some (Value.vStr (if condition = "" then "None" else condition)) := by
  obtain ⟨a, ha⟩ := Option.isSome_iff_exists.mp hi
  simp [set_breakpoint, ha, dictLookup, List.lookup]

/-- Claim C10 witness: both the non-empty and the empty condition at a
concrete initialized session. -/
theorem lldb_c10_witness :
    dictLookup (set_breakpoint envBp readyState "main" "x > 10")
      "condition" = some (Value.vStr "x > 10") ∧
    dictLookup (set_breakpoint envBp readyState "main" "") "condition"
      = some (Value.vStr "None") := by
  constructor
  · have h := lldb_c10_amended envBp readyState "main" "x > 10" rfl
    simpa using h
  · have h := lldb_c10_amended envBp readyState "main" "" rfl
    simpa using h

/-- Claim C1: on the failing input, the output file is truncated to
empty and never written although the command produced output `hello`;
the caller still receives the same record as the file-less call, and an
unopenable file yields an error record. -/
theorem lldb_c1_file_never_written :
    (run_lldb_command envHello readyState "version" "out.txt" emptyFs).1 =
      run_lldb_command_func envHello readyState "version" ∧
    dictGetStr (run_lldb_command_func envHello readyState "version")
      "lldb_output" "" = "hello" ∧
    (run_lldb_command envHello readyState "version" "out.txt" emptyFs).2
      "out.txt" = some "" ∧
    (run_lldb_command envNoOpen readyState "version" "out.txt" emptyFs).1 =
      [("error", Value.vStr "open failed")] := by
  refine ⟨by decide, by decide, by decide, by decide⟩

/-- Claim C5: state-changing operations preserve the invariant that the
interpreter and target handles are stored iff the debugger handle is,
and an initialization that fails after engine creation (interpreter
acquisition or target creation) stores nothing and leaves the state
exactly as it was. The remaining operations return no state at all in
this embedding, mirroring that the source never assigns to
`debugger_state` outside these two functions. -/
theorem lldb_c5_invariant (env : Env) (s : SessionState)
    (filename arch : String) (h : sessionInv s) :
    sessionInv (initialize_debugger env s filename arch).2.1 ∧
    sessionInv (terminate_debugger s).2 ∧
    ((env.fileExists filename = true ∧ env.createOk = true ∧
        ¬(env.interpreterOk = true ∧ env.targetValid = true ∧
          env.targetErrSuccess = true)) →
      (initialize_debugger env s filename arch).2.1 = s) := by
  refine ⟨?_, ?_, ?_⟩
  · unfold initialize_debugger
    split
    · exact h
    · split
      · exact h
      · split
        · exact h
        · split
          · exact h
          · simp [sessionInv]
  · unfold terminate_debugger
    split
    · simp [sessionInv]
    · exact h
  · rintro ⟨he, hc, hrest⟩
    cases hi : env.interpreterOk with
    | false => simp [initialize_debugger, he, hc, hi]
    | true =>
      cases ht : env.targetValid with
      | false => simp [initialize_debugger, he, hc, hi, ht]
      | true =>
        cases hte : env.targetErrSuccess with
        | false => simp [initialize_debugger, he, hc, hi, ht, hte]
        | true => exact absurd ⟨hi, ht, hte⟩ hrest

/-- Claim C5 witness: invariant preserved on a successful initialization
and state unchanged on a failing target creation. -/
theorem lldb_c5_witness :
    sessionInv (initialize_debugger env0 initialState "/bin/ls" "x86_64").2.1 ∧
    (initialize_debugger envFailTarget initialState "/bin/ls" "x86_64").2.1 =
      initialState :=
  ⟨(lldb_c5_invariant env0 initialState "/bin/ls" "x86_64"
      (by unfold sessionInv; decide)).1,
   (lldb_c5_invariant envFailTarget initialState "/bin/ls" "x86_64"
      (by unfold sessionInv; decide)).2.2 ⟨rfl, rfl, by decide⟩⟩

/-- Claim C7 counterexample: the uninitialized status record carries no
process id field at all, so the record does not always contain the five
claimed fields. -/
theorem lldb_c7_counterexample :
    hasKey (get_debugger_status env0 initialState) "process_id" = false ∧
    dictLookup (get_debugger_status env0 initialState) "initialized"
      = some (Value.vBool false) := by
  refine ⟨by decide, by decide⟩

/-- Claim C7 (amended): the uninitialized status is the fixed four-field
record with the no-debugger state string; an initialized status carries
all five fields, reports the stored filename and arch, and reports the
state No process with a null process id when no valid process exists. -/
theorem lldb_c7_amended (env : Env) (s : SessionState) :
    (s.debugger = none →
      get_debugger_status env s =
        [("initialized", Value.vBool false), ("filename", Value.vNone),
         ("arch", Value.vNone),
         ("process_state", Value.vStr "No debugger initialized")]) ∧
    (s.debugger.isSome = true →
      dictLookup (get_debugger_status env s) "initialized"
          = some (Value.vBool true) ∧
        dictLookup (get_debugger_status env s) "filename"
          = some (optStrVal s.filename) ∧
        dictLookup (get_debugger_status env s) "arch"
          = some (optStrVal s.arch) ∧
        hasKey (get_debugger_status env s) "process_state" = true ∧
        hasKey (get_debugger_status env s) "process_id" = true ∧
        (validProcess env s = none →
          dictLookup (get_debugger_status env s) "process_state"
              = some (Value.vStr "No process") ∧
            dictLookup (get_debugger_status env s) "process_id"
              = some Value.vNone)) := by
  constructor
  · intro hd
    simp [get_debugger_status, hd]
  · intro hd
    obtain ⟨d, hd2⟩ := Option.isSome_iff_exists.mp hd
    cases hvp : validProcess env s with
    | some p =>
      simp [get_debugger_status, hd2, hvp, dictLookup, List.lookup, hasKey]
    | none =>
      simp [get_debugger_status, hd2, hvp, dictLookup, List.lookup, hasKey]

/-- Claim C7 witness: both branches at concrete sessions. -/
theorem lldb_c7_witness :
    get_debugger_status env0 initialState =
      [("initialized", Value.vBool false), ("filename", Value.vNone),
       ("arch", Value.vNone),
       ("process_state", Value.vStr "No debugger initialized")] ∧
    dictLookup (get_debugger_status env0 readyState) "process_id"
      = some Value.vNone :=
  ⟨(lldb_c7_amended env0 initialState).1 rfl,
   (((lldb_c7_amended env0 readyState).2 rfl).2.2.2.2.2 rfl).2⟩

/-- Claim C8: the process state reported for a session with a valid
process is always drawn from the closed vocabulary (with unknown as the
only fallback), and every enum code outside the known table maps to
unknown. -/
theorem lldb_c8_state_vocab (env : Env) (s : SessionState)
    (p : ProcessInfo) (hd : s.debugger.isSome = true)
    (hp : validProcess env s = some p) :
    dictLookup (get_debugger_status env s) "process_state"
      = some (Value.vStr (stateName p.stateCode)) ∧
    (∀ code : Nat, stateName code ∈ allowedStates) ∧
    (∀ code : Nat, code ∉ state_names.map Prod.fst →
      stateName code = "unknown") := by
  refine ⟨?_, ?_, ?_⟩
  · obtain ⟨d, hd2⟩ := Option.isSome_iff_exists.mp hd
    simp [get_debugger_status, hd2, hp, dictLookup, List.lookup]
  · intro code
    rcases Nat.lt_or_ge code 12 with h | h
    · interval_cases code <;> decide
    · have hn : stateName code = "unknown" := by
        simp [stateName, lookup_state_names_of_ge code h]
      rw [hn]
      decide
  · intro code hmem
    rcases Nat.lt_or_ge code 12 with h | h
    · exfalso
      apply hmem
      interval_cases code <;> decide
    · simp [stateName, lookup_state_names_of_ge code h]

/-- Claim C8 witness: a running process reports the vocabulary string
running. -/
theorem lldb_c8_witness :
    dictLookup (get_debugger_status envProc readyState) "process_state"
      = some (Value.vStr "running") := by
  have h := (lldb_c8_state_vocab envProc readyState ⟨true, 6, 1234, []⟩
    rfl rfl).1
  simpa using h

/-- Claim C9: on an initialized session the result of the executed
breakpoint command carries no error key, success is reported exactly
when the interpreter output contains the substring Breakpoint and no
error key is present, and the message reads accordingly. -/
theorem lldb_c9_success_heuristic (env : Env) (s : SessionState)
    (location condition : String)
    (hi : s.interpreter.isSome = true) (ht : s.target.isSome = true) :
    hasKey (run_lldb_command_func env s (breakpoint_cmd location condition))
      "error" = false ∧
    (dictLookup (set_breakpoint env s location condition) "success"
        = some (Value.vBool true) ↔
      (pyIn "Breakpoint"
          (dictGetStr
            (run_lldb_command_func env s (breakpoint_cmd location condition))
            "lldb_output" "") = true ∧
        hasKey (run_lldb_command_func env s (breakpoint_cmd location condition))
          "error" = false)) ∧
    dictLookup (set_breakpoint env s location condition) "message"
      = some (Value.vStr
          (if pyIn "Breakpoint"
              (dictGetStr
                (run_lldb_command_func env s (breakpoint_cmd location condition))
                "lldb_output" "") = true
            then "Breakpoint set at " ++ location
            else "Failed to set breakpoint")) := by
  obtain ⟨a, ha⟩ := Option.isSome_iff_exists.mp hi
  obtain ⟨b, hb⟩ := Option.isSome_iff_exists.mp ht
  have herr : hasKey (run_lldb_command_func env s
      (breakpoint_cmd location condition)) "error" = false := by
    simp [run_lldb_command_func, ha, hb, hasKey, dictLookup, List.lookup]
  refine ⟨herr, ?_, ?_⟩
  · cases hpi : pyIn "Breakpoint"
        (dictGetStr
          (run_lldb_command_func env s (breakpoint_cmd location condition))
          "lldb_output" "") <;>
      simp [set_breakpoint, ha, hpi, herr, dictLookup, List.lookup]
  · cases hpi : pyIn "Breakpoint"
        (dictGetStr
          (run_lldb_command_func env s (breakpoint_cmd location condition))
          "lldb_output" "") <;>
      simp [set_breakpoint, ha, hpi, herr, dictLookup, List.lookup]

/-- Claim C9 witness: a successful breakpoint set at a concrete
initialized session. -/
theorem lldb_c9_witness :
    dictLookup (set_breakpoint envBp readyState "main" "") "success"
      = some (Value.vBool true) :=
  ((lldb_c9_success_heuristic envBp readyState "main" "" rfl rfl).2.1).mpr
    ⟨by decide, by decide⟩

end LldbMcp
